import Mathlib

/-!
Verification development for the empathy UOA SASL authentication handler
(`src/libempathy/empathy-uoa-auth-handler.c`).

The handler is a single-threaded, event-driven chain of callbacks that
sequences calls across three external collaborators (credential storage,
identity/session service, protocol channel).  We embed it shallowly as a
pure function from an environment — the per-run outcomes of every external
call — to the list of externally observable events the flow issues, in
issue order.  Each C function (`empathy_uoa_auth_handler_start`,
`identity_query_info_cb`, `session_process_cb`, `auth_cb`,
`auth_context_done`) becomes a Lean definition of the same name producing
its part of the trace; asynchronous continuations contribute their events
after the events of the step that scheduled them, exactly as they fire at
runtime (the flow is never concurrent with itself).
-/

/-- Modelled from the spec: the `EmpathySaslMechanism` enum from
`empathy-sasl-mechanisms.h` (not in the excerpt).  The spec lists the
mechanism domain as {FACEBOOK, WLM, GOOGLE, UNSUPPORTED}; `UNSUPPORTED`
stands for every value outside the three supported ones. -/
inductive Mech where
  | FACEBOOK
  | WLM
  | GOOGLE
  | UNSUPPORTED
deriving DecidableEq, Repr

/-- A GValue-ish parameter value: auth-data parameter maps hold both
strings (e.g. "ClientId") and ints (e.g. the signon UI policy). -/
inductive Val where
  | str (s : String)
  | int (n : Int)
deriving DecidableEq, Repr

/-- An association list standing for a `GHashTable` of string keys
(`tp_asv`-style); earlier entries shadow later ones under lookup. -/
abbrev Asv := List (String × Val)

/-- Embeds `tp_asv_get_string`: look a key up in an asv; NULL (none) when the key
is absent or its value is not a string. -/
def tp_asv_get_string (asv : Asv) (key : String) : Option String :=
  match asv.lookup key with
  | some (Val.str s) => some s
  | _ => none

/-- Embeds `tp_strdiff` (a NULL-safe `g_strcmp0 != 0`): true iff the two
possibly-NULL strings differ. -/
def tp_strdiff (a b : Option String) : Bool :=
  decide (a ≠ b)

/-- Modelled from the spec: the `EMPATHY_UOA_PROVIDER` constant from
`empathy-uoa-utils.h` (not in the excerpt).  The handler only ever
compares the account provider against it, so its exact value is
irrelevant to every claim. -/
def EMPATHY_UOA_PROVIDER : String := "im.telepathy.Account.Storage.UOA"

/-- Modelled from the spec: `SIGNON_SESSION_DATA_UI_POLICY`, the libsignon
session-data key under which the UI policy is stored. -/
def SIGNON_SESSION_DATA_UI_POLICY : String := "UiPolicy"

/-- Modelled from the spec: the `SIGNON_POLICY_REQUEST_PASSWORD` UI-policy
enum value that asks SSO to re-prompt the user for credentials. -/
def SIGNON_POLICY_REQUEST_PASSWORD : Int := 1

/-- Embeds `ag_auth_data_insert_parameters`: the inserted parameters take
precedence over the existing ones (lookup meets the new entries first). -/
def ag_auth_data_insert_parameters (params extra : Asv) : Asv :=
  extra ++ params

/-- The slice of `AgAuthData` the handler reads: declared mechanism name,
credentials id, and the stored parameter mapping. -/
structure AuthData where
  mechanism : String
  credentialsId : Nat
  parameters : Asv
deriving DecidableEq, Repr

/-- An `AgService` of the IM type, carrying its auth data
(`ag_account_service_get_auth_data`). -/
structure Service where
  authData : AuthData
deriving DecidableEq, Repr

/-- An `AgAccount` as the handler sees it: the list returned by
`ag_account_list_services_by_type (account, EMPATHY_UOA_SERVICE_TYPE)`. -/
structure Account where
  services : List Service
deriving DecidableEq, Repr

/-- The `TpChannel` as read by the handler: only its negotiated SASL
mechanism (the value `empathy_sasl_channel_select_mechanism` returns,
fixed per channel for the whole flow). -/
structure Channel where
  mech : Mech
deriving DecidableEq, Repr

/-- The `TpAccount` as read by the handler: storage provider string
(possibly NULL) and the numeric storage identifier. -/
structure TpAccount where
  provider : Option String
  storageId : Nat
deriving DecidableEq, Repr

/-- Embeds `empathy_uoa_auth_handler_supports` (lines 304–324): false when
`tp_strdiff (provider, EMPATHY_UOA_PROVIDER)`, otherwise true iff the
channel mechanism is FACEBOOK, WLM or GOOGLE. -/
def empathy_uoa_auth_handler_supports (channel : Channel) (account : TpAccount) : Bool :=
  if tp_strdiff account.provider (some EMPATHY_UOA_PROVIDER) then
    false
  else
    channel.mech == Mech.FACEBOOK ||
      channel.mech == Mech.WLM ||
      channel.mech == Mech.GOOGLE

/-- The externally observable actions of one run of the flow, in issue
order.  `unref*` events record the explicit release calls in `start`
(the flag marks whether the released handle is NULL at that point);
context-owned handles are released together by `freeContext`
(`auth_context_free`). -/
inductive Event where
  | closeChannel
  | queryIdentity
  | sessionProcess (params : Asv) (mechanism : String) (withCallback : Bool)
  | authFacebook (clientId : Option String) (accessToken : Option String)
  | authWlm (accessToken : Option String)
  | authGoogle (username : Option String) (accessToken : Option String)
  | freeContext
  | assertionFailure
  | unrefAccount (isNull : Bool)
  | unrefAuthData
  | unrefService
  | unrefIdentity
  | unrefSession (isNull : Bool)
deriving DecidableEq, Repr

/-- The per-run outcomes of every external call the flow makes: what
`ag_manager_get_account` resolves to (with its IM-type service list),
whether `signon_identity_create_session` succeeds, what the identity
query returns (username may be NULL), what the session `process` step
returns, and whether the mechanism SASL auth succeeds. -/
structure Env where
  channel : Channel
  tpAccount : TpAccount
  account : Option Account
  sessionCreateOk : Bool
  identityResult : Except String (Option String)
  sessionProcessResult : Except String Asv
  saslAuthOk : Bool

/-- The per-flow context (lines 81–89): channel, auth data, and the
username recorded at the identity-query step.  Session and identity
handles carry no data the flow reads, so they are not fields here; their
release is part of `freeContext`. -/
structure AuthContext where
  channel : Channel
  auth_data : AuthData
  username : Option String
deriving DecidableEq, Repr

/-- Embeds `auth_context_done` (lines 119–124): close the channel, then free the
context (releasing each context-owned handle once). -/
def auth_context_done (_ctx : AuthContext) : List Event :=
  [Event.closeChannel, Event.freeContext]

/-- Embeds `auth_cb` (lines 126–164): on SASL failure, insert the
REQUEST_PASSWORD UI-policy parameter into the auth data and re-issue
`signon_auth_session_process` with NULL callback (fire and forget); in
both branches finish with `auth_context_done`. -/
def auth_cb (env : Env) (ctx : AuthContext) : List Event :=
  if env.saslAuthOk then
    auth_context_done ctx
  else
    let extra : Asv :=
      [(SIGNON_SESSION_DATA_UI_POLICY, Val.int SIGNON_POLICY_REQUEST_PASSWORD)]
    let newParams := ag_auth_data_insert_parameters ctx.auth_data.parameters extra
    Event.sessionProcess newParams ctx.auth_data.mechanism false
      :: auth_context_done { ctx with auth_data := { ctx.auth_data with parameters := newParams } }

/-- Embeds `session_process_cb` (lines 166–210): on error, done; on success read
"AccessToken" from the returned session data and "ClientId" from the
stored auth-data parameters, then dispatch on the channel mechanism
(default branch is `g_assert_not_reached`). -/
def session_process_cb (env : Env) (ctx : AuthContext) : List Event :=
  match env.sessionProcessResult with
  | Except.error _ => auth_context_done ctx
  | Except.ok session_data =>
    let access_token := tp_asv_get_string session_data "AccessToken"
    let client_id := tp_asv_get_string ctx.auth_data.parameters "ClientId"
    match ctx.channel.mech with
    | Mech.FACEBOOK =>
        Event.authFacebook client_id access_token :: auth_cb env ctx
    | Mech.WLM =>
        Event.authWlm access_token :: auth_cb env ctx
    | Mech.GOOGLE =>
        Event.authGoogle ctx.username access_token :: auth_cb env ctx
    | Mech.UNSUPPORTED =>
        [Event.assertionFailure]

/-- Embeds `identity_query_info_cb` (lines 212–234): on error, done; on success
record the returned username into the context and issue
`signon_auth_session_process` with `session_process_cb` as callback. -/
def identity_query_info_cb (env : Env) (ctx : AuthContext) : List Event :=
  match env.identityResult with
  | Except.error _ => auth_context_done ctx
  | Except.ok uname =>
    let ctx2 := { ctx with username := uname }
    Event.sessionProcess ctx2.auth_data.parameters ctx2.auth_data.mechanism true
      :: session_process_cb env ctx2

/-- Embeds `empathy_uoa_auth_handler_start` (lines 236–302), followed by the
events of the asynchronous continuations it schedules.  The
`g_return_if_fail (supports)` guard returns silently; when the service
list is NULL the code unconditionally calls `g_object_unref (account)`
(NULL when resolution itself failed) and closes the channel; when session
creation fails it closes the channel and jumps to `cleanup`, where
`g_object_unref (session)` runs on the NULL session; otherwise it issues
one identity query, runs `cleanup` on the live handles (the context holds
its own references), and the callback chain follows. -/
def empathy_uoa_auth_handler_start (env : Env) : List Event :=
  if empathy_uoa_auth_handler_supports env.channel env.tpAccount then
    let l : List Service :=
      match env.account with
      | none => []
      | some a => a.services
    match l with
    | [] =>
        [Event.unrefAccount (env.account == none), Event.closeChannel]
    | service :: _ =>
        let auth_data := service.authData
        if env.sessionCreateOk then
          let ctx : AuthContext :=
            { channel := env.channel, auth_data := auth_data, username := none }
          Event.unrefAccount false
            :: Event.queryIdentity
            :: Event.unrefAuthData
            :: Event.unrefService
            :: Event.unrefIdentity
            :: Event.unrefSession false
            :: identity_query_info_cb env ctx
        else
          [Event.unrefAccount false, Event.closeChannel,
           Event.unrefAuthData, Event.unrefService, Event.unrefIdentity,
           Event.unrefSession true]
  else
    []

/-! Trace predicates used by the claims. -/

/-- The event is a channel close. -/
def isClose : Event → Bool
  | Event.closeChannel => true
  | _ => false

/-- The event is the identity query. -/
def isQueryIdentity : Event → Bool
  | Event.queryIdentity => true
  | _ => false

/-- The event is a session-processing call (with or without callback). -/
def isSessionProcessEvent : Event → Bool
  | Event.sessionProcess _ _ _ => true
  | _ => false

/-- The event is a session-processing call issued with no completion
callback (fire and forget). -/
def isDetachedSessionProcess : Event → Bool
  | Event.sessionProcess _ _ false => true
  | _ => false

/-- The event is a mechanism-specific SASL dispatch. -/
def isDispatch : Event → Bool
  | Event.authFacebook _ _ => true
  | Event.authWlm _ => true
  | Event.authGoogle _ _ => true
  | _ => false

/-- The event is the context release. -/
def isFreeContext : Event → Bool
  | Event.freeContext => true
  | _ => false

/-- The event is the fatal assertion of the dispatch default branch. -/
def isAssertionFailure : Event → Bool
  | Event.assertionFailure => true
  | _ => false

/-- The event releases a handle that is NULL at that point. -/
def isNullRelease : Event → Bool
  | Event.unrefAccount b => b
  | Event.unrefSession b => b
  | _ => false

/-- True when some channel close occurs strictly before any
mechanism-auth dispatch was even issued (hence before the mechanism-auth
completion step could run). -/
def closeBeforeDispatch (tr : List Event) : Bool :=
  (tr.takeWhile (fun e => !(isDispatch e))).any isClose

/-! Helper lemmas shared by the claims: event counts of each callback
stage, and the literal trace shape of the happy `start` path. -/

lemma auth_cb_countP_close (env : Env) (ctx : AuthContext) :
    (auth_cb env ctx).countP isClose = 1 := by
  unfold auth_cb auth_context_done
  cases env.saslAuthOk <;> simp [List.countP, List.countP.go, isClose]

lemma auth_cb_countP_free (env : Env) (ctx : AuthContext) :
    (auth_cb env ctx).countP isFreeContext = 1 := by
  unfold auth_cb auth_context_done
  cases env.saslAuthOk <;> simp [List.countP, List.countP.go, isFreeContext]

lemma auth_cb_countP_assert (env : Env) (ctx : AuthContext) :
    (auth_cb env ctx).countP isAssertionFailure = 0 := by
  unfold auth_cb auth_context_done
  cases env.saslAuthOk <;> simp [List.countP, List.countP.go, isAssertionFailure]

lemma session_process_cb_countP_close (env : Env) (ctx : AuthContext)
    (h : ctx.channel.mech ≠ Mech.UNSUPPORTED) :
    (session_process_cb env ctx).countP isClose = 1 := by
  unfold session_process_cb
  cases hr : env.sessionProcessResult with
  | error e => simp [auth_context_done, List.countP, List.countP.go, isClose]
  | ok sd =>
      cases hm : ctx.channel.mech with
      | FACEBOOK => simp [List.countP_cons, isClose, auth_cb_countP_close]
      | WLM => simp [List.countP_cons, isClose, auth_cb_countP_close]
      | GOOGLE => simp [List.countP_cons, isClose, auth_cb_countP_close]
      | UNSUPPORTED => exact absurd hm h

lemma session_process_cb_countP_free (env : Env) (ctx : AuthContext)
    (h : ctx.channel.mech ≠ Mech.UNSUPPORTED) :
    (session_process_cb env ctx).countP isFreeContext = 1 := by
  unfold session_process_cb
  cases hr : env.sessionProcessResult with
  | error e => simp [auth_context_done, List.countP, List.countP.go, isFreeContext]
  | ok sd =>
      cases hm : ctx.channel.mech with
      | FACEBOOK => simp [List.countP_cons, isFreeContext, auth_cb_countP_free]
      | WLM => simp [List.countP_cons, isFreeContext, auth_cb_countP_free]
      | GOOGLE => simp [List.countP_cons, isFreeContext, auth_cb_countP_free]
      | UNSUPPORTED => exact absurd hm h

lemma session_process_cb_countP_assert (env : Env) (ctx : AuthContext)
    (h : ctx.channel.mech ≠ Mech.UNSUPPORTED) :
    (session_process_cb env ctx).countP isAssertionFailure = 0 := by
  unfold session_process_cb
  cases hr : env.sessionProcessResult with
  | error e => simp [auth_context_done, List.countP, List.countP.go, isAssertionFailure]
  | ok sd =>
      cases hm : ctx.channel.mech with
      | FACEBOOK => simp [List.countP_cons, isAssertionFailure, auth_cb_countP_assert]
      | WLM => simp [List.countP_cons, isAssertionFailure, auth_cb_countP_assert]
      | GOOGLE => simp [List.countP_cons, isAssertionFailure, auth_cb_countP_assert]
      | UNSUPPORTED => exact absurd hm h

lemma identity_query_info_cb_countP_close (env : Env) (ctx : AuthContext)
    (h : ctx.channel.mech ≠ Mech.UNSUPPORTED) :
    (identity_query_info_cb env ctx).countP isClose = 1 := by
  unfold identity_query_info_cb
  cases hr : env.identityResult with
  | error e => simp [auth_context_done, List.countP, List.countP.go, isClose]
  | ok u =>
      have := session_process_cb_countP_close env { ctx with username := u } h
      simp [List.countP_cons, isClose, this]

lemma identity_query_info_cb_countP_free (env : Env) (ctx : AuthContext)
    (h : ctx.channel.mech ≠ Mech.UNSUPPORTED) :
    (identity_query_info_cb env ctx).countP isFreeContext = 1 := by
  unfold identity_query_info_cb
  cases hr : env.identityResult with
  | error e => simp [auth_context_done, List.countP, List.countP.go, isFreeContext]
  | ok u =>
      have := session_process_cb_countP_free env { ctx with username := u } h
      simp [List.countP_cons, isFreeContext, this]

lemma identity_query_info_cb_countP_assert (env : Env) (ctx : AuthContext)
    (h : ctx.channel.mech ≠ Mech.UNSUPPORTED) :
    (identity_query_info_cb env ctx).countP isAssertionFailure = 0 := by
  unfold identity_query_info_cb
  cases hr : env.identityResult with
  | error e => simp [auth_context_done, List.countP, List.countP.go, isAssertionFailure]
  | ok u =>
      have := session_process_cb_countP_assert env { ctx with username := u } h
      simp [List.countP_cons, isAssertionFailure, this]

lemma supports_mech (channel : Channel) (account : TpAccount)
    (h : empathy_uoa_auth_handler_supports channel account = true) :
    channel.mech ≠ Mech.UNSUPPORTED := by
  unfold empathy_uoa_auth_handler_supports at h
  intro hm
  rw [hm] at h
  simp at h

lemma start_happy_shape (env : Env) (a : Account) (sv : Service) (rest : List Service)
    (hsup : empathy_uoa_auth_handler_supports env.channel env.tpAccount = true)
    (hacc : env.account = some a)
    (hsvc : a.services = sv :: rest)
    (hsess : env.sessionCreateOk = true) :
    empathy_uoa_auth_handler_start env =
      Event.unrefAccount false
        :: Event.queryIdentity
        :: Event.unrefAuthData
        :: Event.unrefService
        :: Event.unrefIdentity
        :: Event.unrefSession false
        :: identity_query_info_cb env
            { channel := env.channel, auth_data := sv.authData, username := none } := by
  simp [empathy_uoa_auth_handler_start, hacc, hsvc, hsup, hsess]

/-! Claim theorems. -/

/-- C1: `supports (channel, account)` returns true if and only if the
account's storage provider equals the expected UOA provider and the
channel's negotiated SASL mechanism is one of FACEBOOK, WLM, GOOGLE; in
particular it is false whenever the provider differs, and false for every
mechanism outside that set regardless of provider. -/
theorem supports_iff_provider_and_supported_mechanism
    (channel : Channel) (account : TpAccount) :
    empathy_uoa_auth_handler_supports channel account = true ↔
      (account.provider = some EMPATHY_UOA_PROVIDER ∧
        (channel.mech = Mech.FACEBOOK ∨ channel.mech = Mech.WLM ∨
          channel.mech = Mech.GOOGLE)) := by
  rcases channel with ⟨m⟩
  rcases account with ⟨p, i⟩
  cases m <;> simp [empathy_uoa_auth_handler_supports, tp_strdiff]

/-- C2: on successful session-processing completion the dispatch is
selected by the channel mechanism and receives exactly the listed
arguments — FACEBOOK: the "ClientId" read from the stored auth-data
parameters plus the "AccessToken" read from the session response; WLM:
the access token only; GOOGLE: the username recorded at the
identity-query step plus the access token. -/
theorem dispatch_receives_spec_arguments
    (env : Env) (a : Account) (sv : Service) (rest : List Service)
    (u : Option String) (sd : Asv)
    (hsup : empathy_uoa_auth_handler_supports env.channel env.tpAccount = true)
    (hacc : env.account = some a)
    (hsvc : a.services = sv :: rest)
    (hsess : env.sessionCreateOk = true)
    (hid : env.identityResult = Except.ok u)
    (hproc : env.sessionProcessResult = Except.ok sd) :
    (env.channel.mech = Mech.FACEBOOK →
      Event.authFacebook (tp_asv_get_string sv.authData.parameters "ClientId")
          (tp_asv_get_string sd "AccessToken")
        ∈ empathy_uoa_auth_handler_start env) ∧
    (env.channel.mech = Mech.WLM →
      Event.authWlm (tp_asv_get_string sd "AccessToken")
        ∈ empathy_uoa_auth_handler_start env) ∧
    (env.channel.mech = Mech.GOOGLE →
      Event.authGoogle u (tp_asv_get_string sd "AccessToken")
        ∈ empathy_uoa_auth_handler_start env) := by
  rw [start_happy_shape env a sv rest hsup hacc hsvc hsess]
  unfold identity_query_info_cb session_process_cb
  rw [hid, hproc]
  refine ⟨fun hm => ?_, fun hm => ?_, fun hm => ?_⟩ <;> simp [hm]

/-- The concrete C2/spec scenario: account resolves to one IM service,
session creates, the identity query returns username "alice", the
channel mechanism is GOOGLE, and session processing returns
AccessToken "tok123". -/
def envGoogleAlice : Env :=
  { channel := { mech := Mech.GOOGLE }
    tpAccount := { provider := some EMPATHY_UOA_PROVIDER, storageId := 7 }
    account := some { services := [{ authData :=
      { mechanism := "oauth2", credentialsId := 42,
        parameters := [("ClientId", Val.str "cid")] } }] }
    sessionCreateOk := true
    identityResult := Except.ok (some "alice")
    sessionProcessResult := Except.ok [("AccessToken", Val.str "tok123")]
    saslAuthOk := true }

/-- Witness for C2: in the scenario run the issued call is
`authGoogle ("alice", "tok123")`. -/
theorem dispatch_receives_spec_arguments_witness :
    Event.authGoogle (some "alice") (some "tok123")
      ∈ empathy_uoa_auth_handler_start envGoogleAlice := by
  have h := (dispatch_receives_spec_arguments envGoogleAlice _ _ [] _ _
    rfl rfl rfl rfl rfl rfl).2.2 rfl
  simpa [tp_asv_get_string] using h

/-- C5: when the account resolves (with at least one IM service) but
session creation fails, the channel is closed, the flow aborts, and no
identity-query call is made. -/
theorem session_create_failure_closes_without_identity_query
    (env : Env) (a : Account) (sv : Service) (rest : List Service)
    (hsup : empathy_uoa_auth_handler_supports env.channel env.tpAccount = true)
    (hacc : env.account = some a)
    (hsvc : a.services = sv :: rest)
    (hsess : env.sessionCreateOk = false) :
    (empathy_uoa_auth_handler_start env).countP isClose = 1 ∧
    (empathy_uoa_auth_handler_start env).countP isQueryIdentity = 0 := by
  simp [empathy_uoa_auth_handler_start, hacc, hsvc, hsup, hsess,
    List.countP_cons, isClose, isQueryIdentity]

/-- A run where the account resolves but session creation fails. -/
def envSessionFail : Env :=
  { channel := { mech := Mech.WLM }
    tpAccount := { provider := some EMPATHY_UOA_PROVIDER, storageId := 3 }
    account := some { services := [{ authData :=
      { mechanism := "oauth2", credentialsId := 9, parameters := [] } }] }
    sessionCreateOk := false
    identityResult := Except.error "unused"
    sessionProcessResult := Except.error "unused"
    saslAuthOk := false }

/-- Witness for C5 at the concrete session-creation-failure run. -/
theorem session_create_failure_witness :
    (empathy_uoa_auth_handler_start envSessionFail).countP isClose = 1 ∧
    (empathy_uoa_auth_handler_start envSessionFail).countP isQueryIdentity = 0 :=
  session_create_failure_closes_without_identity_query envSessionFail _ _ []
    rfl rfl rfl rfl

/-- C3: when mechanism auth reports failure, exactly one additional
session-processing call is issued; its parameters are the auth-data
parameters with the REQUEST_PASSWORD UI-policy parameter inserted; it
carries no completion callback; and the channel close plus context
release immediately follow it as the last events of the run, regardless
of what the retry would return. -/
theorem auth_failure_single_detached_retry_then_close
    (env : Env) (a : Account) (sv : Service) (rest : List Service)
    (u : Option String) (sd : Asv)
    (hsup : empathy_uoa_auth_handler_supports env.channel env.tpAccount = true)
    (hacc : env.account = some a)
    (hsvc : a.services = sv :: rest)
    (hsess : env.sessionCreateOk = true)
    (hid : env.identityResult = Except.ok u)
    (hproc : env.sessionProcessResult = Except.ok sd)
    (hsasl : env.saslAuthOk = false) :
    (empathy_uoa_auth_handler_start env).countP isDetachedSessionProcess = 1 ∧
    ∃ p, empathy_uoa_auth_handler_start env =
      p ++ [Event.sessionProcess
              (ag_auth_data_insert_parameters sv.authData.parameters
                [(SIGNON_SESSION_DATA_UI_POLICY, Val.int SIGNON_POLICY_REQUEST_PASSWORD)])
              sv.authData.mechanism false,
            Event.closeChannel, Event.freeContext] := by
  rw [start_happy_shape env a sv rest hsup hacc hsvc hsess]
  have hm := supports_mech env.channel env.tpAccount hsup
  cases hmm : env.channel.mech with
  | UNSUPPORTED => exact absurd hmm hm
  | FACEBOOK =>
      refine ⟨?_, ⟨Event.unrefAccount false
        :: Event.queryIdentity :: Event.unrefAuthData :: Event.unrefService
        :: Event.unrefIdentity :: Event.unrefSession false
        :: Event.sessionProcess sv.authData.parameters sv.authData.mechanism true
        :: [Event.authFacebook (tp_asv_get_string sv.authData.parameters "ClientId")
              (tp_asv_get_string sd "AccessToken")], ?_⟩⟩ <;>
        simp [identity_query_info_cb, session_process_cb, auth_cb, auth_context_done,
          hid, hproc, hsasl, hmm, List.countP_cons, isDetachedSessionProcess]
  | WLM =>
      refine ⟨?_, ⟨Event.unrefAccount false
        :: Event.queryIdentity :: Event.unrefAuthData :: Event.unrefService
        :: Event.unrefIdentity :: Event.unrefSession false
        :: Event.sessionProcess sv.authData.parameters sv.authData.mechanism true
        :: [Event.authWlm (tp_asv_get_string sd "AccessToken")], ?_⟩⟩ <;>
        simp [identity_query_info_cb, session_process_cb, auth_cb, auth_context_done,
          hid, hproc, hsasl, hmm, List.countP_cons, isDetachedSessionProcess]
  | GOOGLE =>
      refine ⟨?_, ⟨Event.unrefAccount false
        :: Event.queryIdentity :: Event.unrefAuthData :: Event.unrefService
        :: Event.unrefIdentity :: Event.unrefSession false
        :: Event.sessionProcess sv.authData.parameters sv.authData.mechanism true
        :: [Event.authGoogle u (tp_asv_get_string sd "AccessToken")], ?_⟩⟩ <;>
        simp [identity_query_info_cb, session_process_cb, auth_cb, auth_context_done,
          hid, hproc, hsasl, hmm, List.countP_cons, isDetachedSessionProcess]

/-- A run where everything succeeds up to mechanism auth, which fails. -/
def envAuthFail : Env :=
  { channel := { mech := Mech.FACEBOOK }
    tpAccount := { provider := some EMPATHY_UOA_PROVIDER, storageId := 5 }
    account := some { services := [{ authData :=
      { mechanism := "oauth2", credentialsId := 11,
        parameters := [("ClientId", Val.str "cid")] } }] }
    sessionCreateOk := true
    identityResult := Except.ok (some "bob")
    sessionProcessResult := Except.ok [("AccessToken", Val.str "stale")]
    saslAuthOk := false }

/-- Witness for C3 at the concrete mechanism-auth-failure run. -/
theorem auth_failure_single_detached_retry_witness :
    (empathy_uoa_auth_handler_start envAuthFail).countP isDetachedSessionProcess = 1 ∧
    ∃ p, empathy_uoa_auth_handler_start envAuthFail =
      p ++ [Event.sessionProcess
              (ag_auth_data_insert_parameters [("ClientId", Val.str "cid")]
                [(SIGNON_SESSION_DATA_UI_POLICY, Val.int SIGNON_POLICY_REQUEST_PASSWORD)])
              "oauth2" false,
            Event.closeChannel, Event.freeContext] :=
  auth_failure_single_detached_retry_then_close envAuthFail _ _ [] _ _
    rfl rfl rfl rfl rfl rfl rfl

/-- C4: in every run that allocates an AuthContext (account resolved,
a service found, session created), the centralized done operation runs
exactly once — the context is released exactly once and the flow's
callbacks close the channel exactly once, on the success branch and on
every failure branch alike. -/
theorem context_released_once_channel_closed_once
    (env : Env) (a : Account) (sv : Service) (rest : List Service)
    (hsup : empathy_uoa_auth_handler_supports env.channel env.tpAccount = true)
    (hacc : env.account = some a)
    (hsvc : a.services = sv :: rest)
    (hsess : env.sessionCreateOk = true) :
    (empathy_uoa_auth_handler_start env).countP isClose = 1 ∧
    (empathy_uoa_auth_handler_start env).countP isFreeContext = 1 := by
  rw [start_happy_shape env a sv rest hsup hacc hsvc hsess]
  have hm := supports_mech env.channel env.tpAccount hsup
  have h1 := identity_query_info_cb_countP_close env
    { channel := env.channel, auth_data := sv.authData, username := none } hm
  have h2 := identity_query_info_cb_countP_free env
    { channel := env.channel, auth_data := sv.authData, username := none } hm
  constructor <;>
    simp [List.countP_cons, isClose, isFreeContext, h1, h2]

/-- A fully successful run. -/
def envAllOk : Env :=
  { channel := { mech := Mech.WLM }
    tpAccount := { provider := some EMPATHY_UOA_PROVIDER, storageId := 2 }
    account := some { services := [{ authData :=
      { mechanism := "oauth2", credentialsId := 4, parameters := [] } }] }
    sessionCreateOk := true
    identityResult := Except.ok (some "carol")
    sessionProcessResult := Except.ok [("AccessToken", Val.str "t0")]
    saslAuthOk := true }

/-- Witness for C4 at the fully successful run. -/
theorem context_released_once_witness :
    (empathy_uoa_auth_handler_start envAllOk).countP isClose = 1 ∧
    (empathy_uoa_auth_handler_start envAllOk).countP isFreeContext = 1 :=
  context_released_once_channel_closed_once envAllOk _ _ [] rfl rfl rfl rfl

/-- C6: when the identity query completes with an error, the channel is
closed, the context is released, and no session-processing call is
issued in that run. -/
theorem identity_query_error_no_session_process
    (env : Env) (a : Account) (sv : Service) (rest : List Service) (e : String)
    (hsup : empathy_uoa_auth_handler_supports env.channel env.tpAccount = true)
    (hacc : env.account = some a)
    (hsvc : a.services = sv :: rest)
    (hsess : env.sessionCreateOk = true)
    (hid : env.identityResult = Except.error e) :
    (empathy_uoa_auth_handler_start env).countP isSessionProcessEvent = 0 ∧
    (empathy_uoa_auth_handler_start env).countP isClose = 1 ∧
    (empathy_uoa_auth_handler_start env).countP isFreeContext = 1 := by
  rw [start_happy_shape env a sv rest hsup hacc hsvc hsess]
  refine ⟨?_, ?_, ?_⟩ <;>
    simp [identity_query_info_cb, auth_context_done, hid, List.countP_cons,
      isSessionProcessEvent, isClose, isFreeContext]

/-- A run where the identity query fails. -/
def envIdentityError : Env :=
  { channel := { mech := Mech.GOOGLE }
    tpAccount := { provider := some EMPATHY_UOA_PROVIDER, storageId := 8 }
    account := some { services := [{ authData :=
      { mechanism := "oauth2", credentialsId := 6, parameters := [] } }] }
    sessionCreateOk := true
    identityResult := Except.error "identity query failed"
    sessionProcessResult := Except.ok []
    saslAuthOk := true }

/-- Witness for C6 at the concrete identity-query-failure run. -/
theorem identity_query_error_witness :
    (empathy_uoa_auth_handler_start envIdentityError).countP isSessionProcessEvent = 0 ∧
    (empathy_uoa_auth_handler_start envIdentityError).countP isClose = 1 ∧
    (empathy_uoa_auth_handler_start envIdentityError).countP isFreeContext = 1 :=
  identity_query_error_no_session_process envIdentityError _ _ [] _
    rfl rfl rfl rfl rfl

lemma auth_cb_countP_query (env : Env) (ctx : AuthContext) :
    (auth_cb env ctx).countP isQueryIdentity = 0 := by
  unfold auth_cb auth_context_done
  cases env.saslAuthOk <;> simp [List.countP, List.countP.go, isQueryIdentity]

lemma auth_cb_countP_dispatch (env : Env) (ctx : AuthContext) :
    (auth_cb env ctx).countP isDispatch = 0 := by
  unfold auth_cb auth_context_done
  cases env.saslAuthOk <;> simp [List.countP, List.countP.go, isDispatch]

/-- A run satisfying the C7 hypotheses (resolvable account, exactly one
IM service, session creates) whose identity query fails. -/
def envQueryFailOneService : Env :=
  { channel := { mech := Mech.GOOGLE }
    tpAccount := { provider := some EMPATHY_UOA_PROVIDER, storageId := 1 }
    account := some { services := [{ authData :=
      { mechanism := "oauth2", credentialsId := 13, parameters := [] } }] }
    sessionCreateOk := true
    identityResult := Except.error "query failed"
    sessionProcessResult := Except.ok []
    saslAuthOk := true }

/-- Counterexample for C7 as stated: this run resolves the account, has
exactly one IM service and creates its session, yet the channel is
closed (at the failing identity-query step) before any mechanism-auth
dispatch was ever issued — i.e. before the "final (mechanism-auth
completion) step". -/
theorem close_before_final_step_counterexample :
    empathy_uoa_auth_handler_supports envQueryFailOneService.channel
      envQueryFailOneService.tpAccount = true ∧
    envQueryFailOneService.sessionCreateOk = true ∧
    Option.map (fun a => a.services.length) envQueryFailOneService.account = some 1 ∧
    closeBeforeDispatch (empathy_uoa_auth_handler_start envQueryFailOneService) = true :=
  ⟨rfl, rfl, rfl, rfl⟩

/-- C7 (amended): with a resolvable account, exactly one IM service, a
session that creates successfully, and the identity-query and
session-processing steps succeeding, exactly one identity-query call is
issued and the flow never closes the channel before the mechanism-auth
dispatch is issued. -/
theorem single_identity_query_no_close_before_dispatch
    (env : Env) (a : Account) (sv : Service) (u : Option String) (sd : Asv)
    (hsup : empathy_uoa_auth_handler_supports env.channel env.tpAccount = true)
    (hacc : env.account = some a)
    (hsvc : a.services = [sv])
    (hsess : env.sessionCreateOk = true)
    (hid : env.identityResult = Except.ok u)
    (hproc : env.sessionProcessResult = Except.ok sd) :
    (empathy_uoa_auth_handler_start env).countP isQueryIdentity = 1 ∧
    closeBeforeDispatch (empathy_uoa_auth_handler_start env) = false := by
  rw [start_happy_shape env a sv [] hsup hacc hsvc hsess]
  have hm := supports_mech env.channel env.tpAccount hsup
  cases hmm : env.channel.mech with
  | UNSUPPORTED => exact absurd hmm hm
  | FACEBOOK =>
      constructor <;>
        simp [identity_query_info_cb, session_process_cb, hid, hproc, hmm,
          closeBeforeDispatch, List.takeWhile_cons, List.countP_cons,
          isQueryIdentity, isDispatch, isClose, auth_cb_countP_query]
  | WLM =>
      constructor <;>
        simp [identity_query_info_cb, session_process_cb, hid, hproc, hmm,
          closeBeforeDispatch, List.takeWhile_cons, List.countP_cons,
          isQueryIdentity, isDispatch, isClose, auth_cb_countP_query]
  | GOOGLE =>
      constructor <;>
        simp [identity_query_info_cb, session_process_cb, hid, hproc, hmm,
          closeBeforeDispatch, List.takeWhile_cons, List.countP_cons,
          isQueryIdentity, isDispatch, isClose, auth_cb_countP_query]

/-- A fully successful single-service run for the C7 witness. -/
def envOneServiceAllOk : Env :=
  { channel := { mech := Mech.FACEBOOK }
    tpAccount := { provider := some EMPATHY_UOA_PROVIDER, storageId := 4 }
    account := some { services := [{ authData :=
      { mechanism := "oauth2", credentialsId := 21,
        parameters := [("ClientId", Val.str "cid")] } }] }
    sessionCreateOk := true
    identityResult := Except.ok (some "dora")
    sessionProcessResult := Except.ok [("AccessToken", Val.str "t1")]
    saslAuthOk := true }

/-- Witness for the amended C7 at a concrete single-service run. -/
theorem single_identity_query_witness :
    (empathy_uoa_auth_handler_start envOneServiceAllOk).countP isQueryIdentity = 1 ∧
    closeBeforeDispatch (empathy_uoa_auth_handler_start envOneServiceAllOk) = false :=
  single_identity_query_no_close_before_dispatch envOneServiceAllOk _ _ _ _
    rfl rfl rfl rfl rfl rfl

/-- C8: under the `supports` gate (the channel mechanism is FACEBOOK,
WLM or GOOGLE, fixed for the whole flow), the fatal-assertion default
branch of the mechanism dispatch is unreachable in every run. -/
theorem supported_gate_assert_unreachable (env : Env)
    (hsup : empathy_uoa_auth_handler_supports env.channel env.tpAccount = true) :
    (empathy_uoa_auth_handler_start env).countP isAssertionFailure = 0 := by
  have hm := supports_mech env.channel env.tpAccount hsup
  cases hacc : env.account with
  | none =>
      simp [empathy_uoa_auth_handler_start, hsup, hacc, List.countP_cons,
        isAssertionFailure]
  | some a =>
      cases hsvc : a.services with
      | nil =>
          simp [empathy_uoa_auth_handler_start, hsup, hacc, hsvc,
            List.countP_cons, isAssertionFailure]
      | cons sv rest =>
          cases hsess : env.sessionCreateOk with
          | false =>
              simp [empathy_uoa_auth_handler_start, hsup, hacc, hsvc, hsess,
                List.countP_cons, isAssertionFailure]
          | true =>
              rw [start_happy_shape env a sv rest hsup hacc hsvc hsess]
              have h0 := identity_query_info_cb_countP_assert env
                { channel := env.channel, auth_data := sv.authData,
                  username := none } hm
              simp [List.countP_cons, isAssertionFailure, h0]

/-- A gated run for the C8 witness. -/
def envGatedRun : Env :=
  { channel := { mech := Mech.WLM }
    tpAccount := { provider := some EMPATHY_UOA_PROVIDER, storageId := 6 }
    account := some { services := [{ authData :=
      { mechanism := "oauth2", credentialsId := 17, parameters := [] } }] }
    sessionCreateOk := true
    identityResult := Except.ok none
    sessionProcessResult := Except.ok []
    saslAuthOk := false }

/-- Witness for C8 at a concrete gated run. -/
theorem supported_gate_assert_unreachable_witness :
    (empathy_uoa_auth_handler_start envGatedRun).countP isAssertionFailure = 0 :=
  supported_gate_assert_unreachable envGatedRun rfl

/-- The C9 failing input: the account does not resolve
(`ag_manager_get_account` returns NULL). -/
def envAccountNotFound : Env :=
  { channel := { mech := Mech.GOOGLE }
    tpAccount := { provider := some EMPATHY_UOA_PROVIDER, storageId := 99 }
    account := none
    sessionCreateOk := true
    identityResult := Except.error "unused"
    sessionProcessResult := Except.error "unused"
    saslAuthOk := true }

/-- A second C9 failing input: the account resolves but session creation
fails, leaving the session handle NULL at the `cleanup` label. -/
def envSessionCreateFails : Env :=
  { channel := { mech := Mech.FACEBOOK }
    tpAccount := { provider := some EMPATHY_UOA_PROVIDER, storageId := 12 }
    account := some { services := [{ authData :=
      { mechanism := "oauth2", credentialsId := 3, parameters := [] } }] }
    sessionCreateOk := false
    identityResult := Except.error "unused"
    sessionProcessResult := Except.error "unused"
    saslAuthOk := true }

/-- C9 evaluation at its failing inputs: on the resolution-failure path
the code still calls `g_object_unref` on the NULL account (the trace is
exactly that NULL release followed by the channel close), and on the
session-creation-failure path `cleanup` calls `g_object_unref` on the
NULL session — each abort path performs exactly one release of a handle
that was never obtained, contradicting the claim. -/
theorem abort_paths_release_null_handles :
    empathy_uoa_auth_handler_start envAccountNotFound =
      [Event.unrefAccount true, Event.closeChannel] ∧
    Event.unrefSession true ∈ empathy_uoa_auth_handler_start envSessionCreateFails ∧
    (empathy_uoa_auth_handler_start envAccountNotFound).countP isNullRelease = 1 ∧
    (empathy_uoa_auth_handler_start envSessionCreateFails).countP isNullRelease = 1 := by
  refine ⟨rfl, ?_, rfl, rfl⟩
  show Event.unrefSession true ∈ empathy_uoa_auth_handler_start envSessionCreateFails
  decide

/-- C10: when session processing succeeds but the session data has no
"AccessToken" entry and the stored auth-data parameters have no
"ClientId" entry, the flow neither aborts nor reports an error: exactly
one mechanism dispatch is still issued, with NULL standing in for the
missing access token (read from the session response) and for the
missing client id (read from the stored parameters, not the response). -/
theorem missing_token_and_client_id_dispatch_null
    (env : Env) (a : Account) (sv : Service) (rest : List Service)
    (u : Option String) (sd : Asv)
    (hsup : empathy_uoa_auth_handler_supports env.channel env.tpAccount = true)
    (hacc : env.account = some a)
    (hsvc : a.services = sv :: rest)
    (hsess : env.sessionCreateOk = true)
    (hid : env.identityResult = Except.ok u)
    (hproc : env.sessionProcessResult = Except.ok sd)
    (htok : tp_asv_get_string sd "AccessToken" = none)
    (hcid : tp_asv_get_string sv.authData.parameters "ClientId" = none) :
    (empathy_uoa_auth_handler_start env).countP isDispatch = 1 ∧
    (env.channel.mech = Mech.FACEBOOK →
      Event.authFacebook none none ∈ empathy_uoa_auth_handler_start env) ∧
    (env.channel.mech = Mech.WLM →
      Event.authWlm none ∈ empathy_uoa_auth_handler_start env) ∧
    (env.channel.mech = Mech.GOOGLE →
      Event.authGoogle u none ∈ empathy_uoa_auth_handler_start env) := by
  rw [start_happy_shape env a sv rest hsup hacc hsvc hsess]
  have hm := supports_mech env.channel env.tpAccount hsup
  cases hmm : env.channel.mech with
  | UNSUPPORTED => exact absurd hmm hm
  | FACEBOOK =>
      refine ⟨?_, ?_, ?_, ?_⟩ <;>
        simp [identity_query_info_cb, session_process_cb, hid, hproc, hmm,
          htok, hcid, List.countP_cons, isDispatch, auth_cb_countP_dispatch]
  | WLM =>
      refine ⟨?_, ?_, ?_, ?_⟩ <;>
        simp [identity_query_info_cb, session_process_cb, hid, hproc, hmm,
          htok, hcid, List.countP_cons, isDispatch, auth_cb_countP_dispatch]
  | GOOGLE =>
      refine ⟨?_, ?_, ?_, ?_⟩ <;>
        simp [identity_query_info_cb, session_process_cb, hid, hproc, hmm,
          htok, hcid, List.countP_cons, isDispatch, auth_cb_countP_dispatch]

/-- A run whose session response lacks "AccessToken" (while carrying a
"ClientId" entry that the code must not read) and whose stored
parameters lack "ClientId". -/
def envMissingToken : Env :=
  { channel := { mech := Mech.FACEBOOK }
    tpAccount := { provider := some EMPATHY_UOA_PROVIDER, storageId := 15 }
    account := some { services := [{ authData :=
      { mechanism := "oauth2", credentialsId := 8, parameters := [] } }] }
    sessionCreateOk := true
    identityResult := Except.ok (some "erin")
    sessionProcessResult := Except.ok [("ClientId", Val.str "only-in-response")]
    saslAuthOk := true }

/-- Witness for C10: with the access token missing from the response and
the client id absent from the stored parameters, the FACEBOOK dispatch
still fires and both arguments are NULL — the "ClientId" present only in
the session response is not read. -/
theorem missing_token_dispatch_null_witness :
    (empathy_uoa_auth_handler_start envMissingToken).countP isDispatch = 1 ∧
    Event.authFacebook none none ∈ empathy_uoa_auth_handler_start envMissingToken := by
  have h := missing_token_and_client_id_dispatch_null envMissingToken _ _ [] _ _
    rfl rfl rfl rfl rfl rfl rfl rfl
  exact ⟨h.1, h.2.1 rfl⟩
